import Mathlib

/-!
Verification of the volcano/ashfall monitoring lab scripts.

Numeric sensor readings are modelled as exact rationals (`ℚ`); a possibly
missing reading (Python `None`) is `Option ℚ`.  Python's truthiness test
`if x and x >= t` on an optional float is modelled explicitly: `None` and
`0` are falsy.  Python's banker's rounding `round(x, nd)` is modelled by
`pyRound`, and fixed-point string formatting `f"{x:.kf}"` by `fmtFixed`.
-/

/-- Round-half-to-even of a rational to the nearest integer
(the rounding used by Python's `round` and float formatting). -/
def roundHalfEven (q : ℚ) : ℤ :=
  let f := ⌊q⌋
  let r := q - f
  if r < 1/2 then f
  else if 1/2 < r then f + 1
  else if f % 2 = 0 then f else f + 1

/-- Python `round(q, nd)` for a non-negative number of digits. -/
def pyRound (q : ℚ) (nd : ℕ) : ℚ :=
  (roundHalfEven (q * 10 ^ nd) : ℚ) / 10 ^ nd

/-- Python fixed-point formatting `f"{q:.ndf}"`. -/
def fmtFixed (nd : ℕ) (q : ℚ) : String :=
  let n := roundHalfEven (q * 10 ^ nd)
  let sign := if n < 0 then "-" else ""
  let a := n.natAbs
  let ip := a / 10 ^ nd
  let fp := a % 10 ^ nd
  let fs := toString fp
  let pad := String.mk (List.replicate (nd - fs.length) '0')
  if nd = 0 then sign ++ toString ip
  else sign ++ toString ip ++ "." ++ pad ++ fs

/-- Predicate `nonnegOpt r`: holds when the optional reading is `None` or non-negative. -/
def nonnegOpt : Option ℚ → Bool
  | none => true
  | some x => decide (0 ≤ x)

namespace Volcano

/-- The guarded threshold test `if reading and reading >= thr` of
`evaluate_alert` in `Volcano.py`. -/
def chk (r : Option ℚ) (thr : ℚ) : Bool :=
  match r with
  | none => false
  | some x => x != 0 && decide (thr ≤ x)

/-- Function `evaluate_alert` from `Volcano.py`: staged PHIVOLCS-inspired alert
levels.  Thresholds written as exact rationals (`0.05 = 1/20`, `1.8 = 9/5`,
`0.15 = 3/20`, `2.5 = 5/2`, `1.5 = 3/2`). -/
def evaluate_alert (pm25 accel_mag mqv temp : Option ℚ) : ℕ × String :=
  let st : ℕ × List String := (0, [])
  -- Level 1: Low Intermittent Unrest
  let st := if chk accel_mag (1/20) then (max st.1 1, st.2 ++ ["Light tremor"]) else st
  let st := if chk mqv 1 then (max st.1 1, st.2 ++ ["Slight gas rise"]) else st
  let st := if chk temp 45 then (max st.1 1, st.2 ++ ["Slight temperature increase"]) else st
  -- Level 2: Moderate Unrest
  let st := if chk accel_mag (3/20) then (max st.1 2, st.2 ++ ["Elevated tremor"]) else st
  let st := if chk mqv (9/5) then (max st.1 2, st.2 ++ ["Moderate gas increase"]) else st
  let st := if chk temp 60 then (max st.1 2, st.2 ++ ["High temperature"]) else st
  -- Level 3: High Unrest
  let st := if chk accel_mag (1/2) then (max st.1 3, st.2 ++ ["Strong tremor"]) else st
  let st := if chk pm25 150 then (max st.1 3, st.2 ++ ["High ash emission"]) else st
  let st := if chk mqv (5/2) then (max st.1 3, st.2 ++ ["High gas level"]) else st
  -- Level 4: Hazardous Eruption Imminent
  let st := if chk accel_mag 1 then (max st.1 4, st.2 ++ ["Very strong tremor"]) else st
  let st := if chk pm25 350 then (max st.1 4, st.2 ++ ["Hazardous ash emission"]) else st
  -- Level 5: Hazardous Eruption Ongoing
  let st := if chk accel_mag (3/2) then (max st.1 5, st.2 ++ ["Extreme tremor (eruption)"]) else st
  let st := if chk pm25 500 then (max st.1 5, st.2 ++ ["Extreme ash (eruption)"]) else st
  -- No readings? Background
  let reasons := if st.2.isEmpty then ["Background levels"] else st.2
  (st.1, "; ".intercalate reasons)

/-- One alert stage: the value of its guard, its level, its message. -/
def applyStage (st : ℕ × List String) (stage : Bool × ℕ × String) : ℕ × List String :=
  if stage.1 then (max st.1 stage.2.1, st.2 ++ [stage.2.2]) else st

/-- Run a list of stages, accumulating level and reasons in program order. -/
def runStages (init : ℕ × List String) (ss : List (Bool × ℕ × String)) : ℕ × List String :=
  ss.foldl applyStage init

/-- Join the accumulated reasons exactly as `evaluate_alert` does. -/
def finalizeAlert (st : ℕ × List String) : ℕ × String :=
  (st.1, "; ".intercalate (if st.2.isEmpty then ["Background levels"] else st.2))

/-- The thirteen guarded stages of `evaluate_alert`, in program order. -/
def codeStages (pm25 accel_mag mqv temp : Option ℚ) : List (Bool × ℕ × String) :=
  [ (chk accel_mag (1/20), 1, "Light tremor"),
    (chk mqv 1, 1, "Slight gas rise"),
    (chk temp 45, 1, "Slight temperature increase"),
    (chk accel_mag (3/20), 2, "Elevated tremor"),
    (chk mqv (9/5), 2, "Moderate gas increase"),
    (chk temp 60, 2, "High temperature"),
    (chk accel_mag (1/2), 3, "Strong tremor"),
    (chk pm25 150, 3, "High ash emission"),
    (chk mqv (5/2), 3, "High gas level"),
    (chk accel_mag 1, 4, "Very strong tremor"),
    (chk pm25 350, 4, "Hazardous ash emission"),
    (chk accel_mag (3/2), 5, "Extreme tremor (eruption)"),
    (chk pm25 500, 5, "Extreme ash (eruption)") ]

/-- Specification-side satisfaction: a stage is satisfied when the
corresponding reading is present and meets the threshold comparison. -/
def stageSatB (r : Option ℚ) (thr : ℚ) : Bool :=
  match r with
  | none => false
  | some x => decide (thr ≤ x)

/-- The thirteen stages with the specification's satisfaction predicate. -/
def specStages (pm25 accel_mag mqv temp : Option ℚ) : List (Bool × ℕ × String) :=
  [ (stageSatB accel_mag (1/20), 1, "Light tremor"),
    (stageSatB mqv 1, 1, "Slight gas rise"),
    (stageSatB temp 45, 1, "Slight temperature increase"),
    (stageSatB accel_mag (3/20), 2, "Elevated tremor"),
    (stageSatB mqv (9/5), 2, "Moderate gas increase"),
    (stageSatB temp 60, 2, "High temperature"),
    (stageSatB accel_mag (1/2), 3, "Strong tremor"),
    (stageSatB pm25 150, 3, "High ash emission"),
    (stageSatB mqv (5/2), 3, "High gas level"),
    (stageSatB accel_mag 1, 4, "Very strong tremor"),
    (stageSatB pm25 350, 4, "Hazardous ash emission"),
    (stageSatB accel_mag (3/2), 5, "Extreme tremor (eruption)"),
    (stageSatB pm25 500, 5, "Extreme ash (eruption)") ]

/-- Specified alert level: the highest level among satisfied stages
(0 when none is satisfied). -/
def specLevel (pm25 accel_mag mqv temp : Option ℚ) : ℕ :=
  (((specStages pm25 accel_mag mqv temp).filter (fun s => s.1)).map
    (fun s => s.2.1)).foldl max 0

/-- Specified reason string: the `"; "`-joined messages of the satisfied
stages in program order, or `"Background levels"` when none is satisfied. -/
def specReason (pm25 accel_mag mqv temp : Option ℚ) : String :=
  let msgs := ((specStages pm25 accel_mag mqv temp).filter (fun s => s.1)).map
    (fun s => s.2.2)
  if msgs.isEmpty then "Background levels" else "; ".intercalate msgs

end Volcano

example : Volcano.evaluate_alert (some 200) (some (1/10)) none none =
    (3, "Light tremor; High ash emission") := by
  norm_num [Volcano.evaluate_alert, Volcano.chk]
  rfl

example : Volcano.evaluate_alert none none none none = (0, "Background levels") := by
  norm_num [Volcano.evaluate_alert, Volcano.chk]
  rfl

example : Volcano.evaluate_alert (some 0) (some 0) (some 0) (some 0) =
    (0, "Background levels") := by
  norm_num [Volcano.evaluate_alert, Volcano.chk]
  rfl

namespace Lab6

/-- Function `calculate_pm25` from `lab6.py`: simulated PM2.5 from temperature and
humidity, clamped to [0, 500] and rounded to one decimal. -/
def calculate_pm25 (temp humidity : Option ℚ) : Option ℚ :=
  match temp, humidity with
  | some t, some h => some (pyRound (min 500 (max 0 (t * 5 + (100 - h) * 3))) 1)
  | _, _ => none

/-- Function `calculate_tremor` from `lab6.py` (identical in `lab6_2.py`): tremor
spike on sound (capped at 0.10), decay by 0.8 otherwise (floored at 0.001). -/
def calculate_tremor (sound_detected : Bool) (previous_tremor : ℚ) : ℚ :=
  if sound_detected then min (pyRound (previous_tremor + 1/50) 3) (1/10)
  else max (pyRound (previous_tremor * (4/5)) 3) (1/1000)

/-- Function `get_air_quality_status` from `lab6.py`. -/
def get_air_quality_status : Option ℚ → String
  | none => "UNKNOWN"
  | some pm25 =>
    if pm25 ≤ 50 then "SAFE"
    else if pm25 ≤ 150 then "MODERATE"
    else if pm25 ≤ 250 then "UNHEALTHY"
    else if pm25 ≤ 350 then "VERY_UNHEALTHY"
    else "HAZARDOUS"

/-- Function `get_tremor_status` from `lab6.py`. -/
def get_tremor_status : Option ℚ → String
  | none => "UNKNOWN"
  | some tremor =>
    if tremor < 1/100 then "NORMAL"
    else if tremor < 1/50 then "MINOR"
    else if tremor < 1/20 then "MODERATE"
    else "STRONG"

/-- Format an optional value as `read_and_log_data` does:
`f"{v:.ndf}" if v else "N/A"` (Python truthiness: `None` and 0 give "N/A"). -/
def fmtOpt (nd : ℕ) : Option ℚ → String
  | none => "N/A"
  | some x => if x = 0 then "N/A" else fmtFixed nd x

/-- One logged CSV data row of `lab6.py`, field by field. -/
structure DataRow where
  timestamp : String
  temperature_C : String
  humidity_pct : String
  sound_detected : String
  simulated_PM25 : String
  simulated_tremor_ms2 : String
  air_quality_status : String
  tremor_status : String
deriving DecidableEq

/-- A CSV file as a list of rows of cells. -/
abbrev CsvFile := List (List String)

/-- The header row written by `initialize_csv`. -/
def headerRow : List String :=
  ["Timestamp", "Temperature_C", "Humidity_%", "Sound_Detected",
   "Simulated_PM25", "Simulated_Tremor_ms2", "Air_Quality_Status", "Tremor_Status"]

/-- Function `initialize_csv` from `lab6.py`: opening in append mode creates the file
with a header row when it does not exist and leaves it unchanged otherwise
(`none` models an absent file). -/
def initialize_csv : Option CsvFile → CsvFile
  | none => [headerRow]
  | some rows => rows

/-- The cells of a data row, in the header's column order. -/
def rowCells (r : DataRow) : List String :=
  [r.timestamp, r.temperature_C, r.humidity_pct, r.sound_detected,
   r.simulated_PM25, r.simulated_tremor_ms2, r.air_quality_status, r.tremor_status]

/-- Function `read_and_log_data` from `lab6.py`: build the data row from the current
readings and the threaded `previous_tremor`, append it to the CSV file, and
return the new tremor value.  The current readings (timestamp, temperature,
humidity, sound) are passed in explicitly; file writing is modelled as list
append. -/
def read_and_log_data (csvfile : CsvFile) (timestamp : String)
    (temperature humidity : Option ℚ) (sound_detected : Bool)
    (previous_tremor : ℚ) : DataRow × CsvFile × ℚ :=
  let pm25 := calculate_pm25 temperature humidity
  let tremor := calculate_tremor sound_detected previous_tremor
  let air_status := get_air_quality_status pm25
  let tremor_status := get_tremor_status (some tremor)
  let data_row : DataRow :=
    { timestamp := timestamp
      temperature_C := fmtOpt 1 temperature
      humidity_pct := fmtOpt 1 humidity
      sound_detected := if sound_detected then "YES" else "NO"
      simulated_PM25 := fmtOpt 1 pm25
      simulated_tremor_ms2 := fmtFixed 3 tremor
      air_quality_status := air_status
      tremor_status := tremor_status }
  (data_row, csvfile ++ [rowCells data_row], tremor)

end Lab6

example : Lab6.calculate_tremor false (1/100) = 1/125 := by
  norm_num [Lab6.calculate_tremor, pyRound, roundHalfEven]

example : Lab6.calculate_tremor false (1/20) = 1/25 := by
  norm_num [Lab6.calculate_tremor, pyRound, roundHalfEven]

example : fmtFixed 3 (1/125) = "0.008" := by
  norm_num [fmtFixed, roundHalfEven]
  rfl

namespace Volcano

/-- Function `firebase_log` from `Volcano.py`, with the fallible `fb_ref.push` call
modelled as an `Except` value.  The function itself never fails: its result
is always `Except.ok` of a Bool. -/
def firebase_log (firebase_available : Bool) (push : Except String Unit) :
    Except String Bool :=
  if !firebase_available then Except.ok false
  else
    match push with
    | Except.ok _ => Except.ok true
    | Except.error _ => Except.ok false

/-- The actuator settings driven by one `main_loop` iteration:
RGB duty-cycle triple, beacon state, siren state. -/
structure Actuation where
  rgb : ℕ × ℕ × ℕ
  beacon : Bool
  siren : Bool
deriving DecidableEq

/-- The `if level == 0 / elif level == 1 / elif level == 2 / else` actuator
branch of `main_loop` in `Volcano.py`. -/
def actuate_for_level (level : ℕ) : Actuation :=
  if level = 0 then { rgb := (20, 80, 20), beacon := false, siren := false }
  else if level = 1 then { rgb := (80, 80, 20), beacon := true, siren := false }
  else if level = 2 then { rgb := (90, 40, 0), beacon := true, siren := true }
  else { rgb := (100, 0, 0), beacon := true, siren := true }

end Volcano

namespace Lab8

/-- The `COLORS` table of `lab8.py`. -/
def COLORS (k : String) : String :=
  if k = "bg_dark" then "#2C1810"
  else if k = "bg_light" then "#FFF5E6"
  else if k = "accent_red" then "#C74B50"
  else if k = "accent_orange" then "#DDA86A"
  else if k = "accent_peach" then "#E5B299"
  else if k = "text_dark" then "#2C1810"
  else if k = "text_light" then "#8B6F47"
  else if k = "safe" then "#2ecc71"
  else if k = "moderate" then "#f39c12"
  else if k = "unhealthy" then "#e67e22"
  else if k = "danger" then "#e74c3c"
  else ""

/-- Method `SensorHandler.get_air_quality_status` from `lab8.py`, as a function of
`self.pm25`; returns the status label and its colour. -/
def get_air_quality_status (pm25 : Option ℚ) : String × String :=
  match pm25 with
  | none => ("UNKNOWN", COLORS ("text_light"))
  | some p =>
    if p ≤ 50 then ("SAFE", COLORS ("safe"))
    else if p ≤ 150 then ("MODERATE", COLORS ("moderate"))
    else if p ≤ 250 then ("UNHEALTHY", COLORS ("unhealthy"))
    else ("HAZARDOUS", COLORS ("danger"))

/-- The PM2.5 / ash-level update of `SensorHandler._calculate_derived_values`
in `lab8.py`.  The `random.uniform(a, b)` draw is `a + (b - a) * u` for a
unit draw `u ∈ [0, 1]`, supplied as a parameter: dry soil draws from
`uniform(0, 100)` added to 400, wet soil from `uniform(0, 50)`. -/
def calculate_derived_pm25 (soil_is_dry : Option Bool) (u : ℚ) :
    Option ℚ × String :=
  match soil_is_dry with
  | none => (none, "UNKNOWN")
  | some true => (some (pyRound (400 + 100 * u) 1), "HEAVY")
  | some false => (some (pyRound (50 * u) 1), "NONE")

end Lab8

namespace Lab8try

/-- Function `get_air_quality` from `lab8try.py` (no `None` branch; called only with
a number). -/
def get_air_quality (pm25 : ℚ) : String :=
  if pm25 ≤ 50 then "SAFE"
  else if pm25 ≤ 150 then "MODERATE"
  else if pm25 ≤ 250 then "UNHEALTHY"
  else if pm25 ≤ 350 then "VERY UNHEALTHY"
  else "HAZARDOUS"

end Lab8try

example : Lab6.get_air_quality_status (some 300) = "VERY_UNHEALTHY" := by
  norm_num [Lab6.get_air_quality_status]

example : (Lab8.get_air_quality_status (some 300)).1 = "HAZARDOUS" := by
  norm_num [Lab8.get_air_quality_status]

example : Lab8try.get_air_quality 300 = "VERY UNHEALTHY" := by
  norm_num [Lab8try.get_air_quality]

section Rounding

lemma roundHalfEven_le (q : ℚ) : (roundHalfEven q : ℚ) ≤ q + 1/2 := by
  simp only [roundHalfEven]
  have hf : ((⌊q⌋ : ℤ) : ℚ) ≤ q := Int.floor_le q
  have hf2 : q < (⌊q⌋ : ℤ) + 1 := Int.lt_floor_add_one q
  split_ifs <;> push_cast <;> push_cast at hf hf2 <;> linarith

lemma le_roundHalfEven (q : ℚ) : q - 1/2 ≤ (roundHalfEven q : ℚ) := by
  simp only [roundHalfEven]
  have hf : ((⌊q⌋ : ℤ) : ℚ) ≤ q := Int.floor_le q
  have hf2 : q < (⌊q⌋ : ℤ) + 1 := Int.lt_floor_add_one q
  split_ifs <;> push_cast <;> linarith

lemma roundHalfEven_le_int {q : ℚ} {m : ℤ} (h : q ≤ (m : ℚ)) :
    roundHalfEven q ≤ m := by
  by_contra hc
  push_neg at hc
  have h1 : ((m : ℚ) + 1) ≤ (roundHalfEven q : ℚ) := by
    exact_mod_cast Int.add_one_le_iff.mpr hc
  have h2 := roundHalfEven_le q
  linarith

lemma int_le_roundHalfEven {q : ℚ} {m : ℤ} (h : (m : ℚ) ≤ q) :
    m ≤ roundHalfEven q := by
  by_contra hc
  push_neg at hc
  have h1 : ((roundHalfEven q : ℚ) + 1) ≤ (m : ℚ) := by
    exact_mod_cast Int.add_one_le_iff.mpr hc
  have h2 := le_roundHalfEven q
  linarith

lemma pyRound_le {q : ℚ} {m : ℤ} {nd : ℕ} (h : q * 10 ^ nd ≤ (m : ℚ)) :
    pyRound q nd ≤ (m : ℚ) / 10 ^ nd := by
  unfold pyRound
  have hp : (0 : ℚ) < 10 ^ nd := by positivity
  have := roundHalfEven_le_int h
  exact div_le_div_of_nonneg_right (by exact_mod_cast this) hp.le

lemma le_pyRound {q : ℚ} {m : ℤ} {nd : ℕ} (h : (m : ℚ) ≤ q * 10 ^ nd) :
    (m : ℚ) / 10 ^ nd ≤ pyRound q nd := by
  unfold pyRound
  have hp : (0 : ℚ) < 10 ^ nd := by positivity
  have := int_le_roundHalfEven h
  exact div_le_div_of_nonneg_right (by exact_mod_cast this) hp.le

end Rounding

namespace Volcano

lemma evaluate_alert_eq_runStages (pm25 accel_mag mqv temp : Option ℚ) :
    evaluate_alert pm25 accel_mag mqv temp =
      finalizeAlert (runStages (0, []) (codeStages pm25 accel_mag mqv temp)) := rfl

lemma chk_eq_stageSatB (r : Option ℚ) {thr : ℚ} (ht : 0 < thr) :
    chk r thr = stageSatB r thr := by
  cases r with
  | none => rfl
  | some x =>
    by_cases hx : x = 0
    · subst hx
      have hthr : ¬ thr ≤ 0 := by linarith
      simp [chk, stageSatB, hthr]
    · simp [chk, stageSatB, hx]

lemma codeStages_eq_specStages (pm25 accel_mag mqv temp : Option ℚ) :
    codeStages pm25 accel_mag mqv temp = specStages pm25 accel_mag mqv temp := by
  unfold codeStages specStages
  rw [chk_eq_stageSatB accel_mag (by norm_num : (0:ℚ) < 1/20),
    chk_eq_stageSatB mqv (by norm_num : (0:ℚ) < 1),
    chk_eq_stageSatB temp (by norm_num : (0:ℚ) < 45),
    chk_eq_stageSatB accel_mag (by norm_num : (0:ℚ) < 3/20),
    chk_eq_stageSatB mqv (by norm_num : (0:ℚ) < 9/5),
    chk_eq_stageSatB temp (by norm_num : (0:ℚ) < 60),
    chk_eq_stageSatB accel_mag (by norm_num : (0:ℚ) < 1/2),
    chk_eq_stageSatB pm25 (by norm_num : (0:ℚ) < 150),
    chk_eq_stageSatB mqv (by norm_num : (0:ℚ) < 5/2),
    chk_eq_stageSatB accel_mag (by norm_num : (0:ℚ) < 1),
    chk_eq_stageSatB pm25 (by norm_num : (0:ℚ) < 350),
    chk_eq_stageSatB accel_mag (by norm_num : (0:ℚ) < 3/2),
    chk_eq_stageSatB pm25 (by norm_num : (0:ℚ) < 500)]

lemma runStages_eq (ss : List (Bool × ℕ × String)) :
    ∀ st : ℕ × List String,
      runStages st ss =
        (((ss.filter (fun s => s.1)).map (fun s => s.2.1)).foldl max st.1,
         st.2 ++ (ss.filter (fun s => s.1)).map (fun s => s.2.2)) := by
  induction ss with
  | nil => intro st; simp [runStages]
  | cons s ss ih =>
    intro st
    have hstep : runStages st (s :: ss) = runStages (applyStage st s) ss := rfl
    rw [hstep, ih]
    by_cases hb : s.1 = true
    · simp [applyStage, hb, List.filter_cons]
    · simp only [Bool.not_eq_true] at hb
      simp [applyStage, hb, List.filter_cons]

lemma foldl_max_le {l : List ℕ} {b : ℕ} :
    ∀ {acc : ℕ}, acc ≤ b → (∀ x ∈ l, x ≤ b) → l.foldl max acc ≤ b := by
  induction l with
  | nil => intro acc h _; simpa using h
  | cons x xs ih =>
    intro acc hacc hall
    have hx : x ≤ b := hall x (by simp)
    exact ih (max_le hacc hx) (fun y hy => hall y (by simp [hy]))

end Volcano

/-- C1: for all inputs (each `None` or a non-negative reading),
`evaluate_alert` returns a level that is the highest level among the
satisfied threshold stages (0 when none is satisfied, and never above 5),
and a reason that is the `"; "`-joined concatenation of the triggered stage
messages in program order, or exactly "Background levels" when no stage
triggered. -/
theorem evaluate_alert_matches_staged_spec (pm25 accel_mag mqv temp : Option ℚ)
    (hp : nonnegOpt pm25 = true) (ha : nonnegOpt accel_mag = true)
    (hm : nonnegOpt mqv = true) (ht : nonnegOpt temp = true) :
    (Volcano.evaluate_alert pm25 accel_mag mqv temp).1 ≤ 5 ∧
      Volcano.evaluate_alert pm25 accel_mag mqv temp =
        (Volcano.specLevel pm25 accel_mag mqv temp,
         Volcano.specReason pm25 accel_mag mqv temp) := by
  have hmain : Volcano.evaluate_alert pm25 accel_mag mqv temp =
      (Volcano.specLevel pm25 accel_mag mqv temp,
       Volcano.specReason pm25 accel_mag mqv temp) := by
    rw [Volcano.evaluate_alert_eq_runStages, Volcano.codeStages_eq_specStages,
      Volcano.runStages_eq]
    simp only [Volcano.finalizeAlert, Volcano.specLevel, Volcano.specReason,
      List.nil_append, Prod.mk.injEq]
    refine ⟨trivial, ?_⟩
    by_cases hemp : (((Volcano.specStages pm25 accel_mag mqv temp).filter
        (fun s => s.1)).map (fun s => s.2.2)).isEmpty = true
    · simp only [hemp, if_pos]
      rfl
    · rw [if_neg hemp, if_neg hemp]
  refine ⟨?_, hmain⟩
  rw [hmain]
  apply Volcano.foldl_max_le (by norm_num)
  intro x hx
  simp only [List.mem_map] at hx
  obtain ⟨s, hs, rfl⟩ := hx
  have hmem := (List.mem_filter.mp hs).1
  fin_cases hmem <;> norm_num

/-- Witness for C1 at concrete inputs. -/
theorem evaluate_alert_matches_staged_spec_witness :
    nonnegOpt (some 400) = true ∧ nonnegOpt (some (1/10)) = true ∧
      ((Volcano.evaluate_alert (some 400) (some (1/10)) none none).1 ≤ 5 ∧
        Volcano.evaluate_alert (some 400) (some (1/10)) none none =
          (Volcano.specLevel (some 400) (some (1/10)) none none,
           Volcano.specReason (some 400) (some (1/10)) none none)) :=
  ⟨by norm_num [nonnegOpt], by norm_num [nonnegOpt],
    evaluate_alert_matches_staged_spec (some 400) (some (1/10)) none none
      (by norm_num [nonnegOpt]) (by norm_num [nonnegOpt]) rfl rfl⟩

/-- C9: `evaluate_alert` treats a reading equal to 0 like a missing reading:
all-zero readings give exactly the all-`None` result, level 0 with reason
"Background levels", because each guard tests truthiness first. -/
theorem evaluate_alert_zero_eq_none :
    Volcano.evaluate_alert (some 0) (some 0) (some 0) (some 0) =
        Volcano.evaluate_alert none none none none ∧
      Volcano.evaluate_alert none none none none = (0, "Background levels") := by
  constructor
  · norm_num [Volcano.evaluate_alert, Volcano.chk]
  · norm_num [Volcano.evaluate_alert, Volcano.chk]
    rfl

namespace Volcano

lemma actuate_for_level_cases (l : ℕ) :
    (actuate_for_level l).siren = decide (2 ≤ l) ∧
      (actuate_for_level l).beacon = decide (1 ≤ l) ∧
      (actuate_for_level l).rgb =
        (if l = 0 then (20, 80, 20) else if l = 1 then (80, 80, 20)
         else if l = 2 then (90, 40, 0) else (100, 0, 0)) := by
  rcases l with _ | _ | _ | n
  · exact ⟨rfl, rfl, rfl⟩
  · exact ⟨rfl, rfl, rfl⟩
  · exact ⟨rfl, rfl, rfl⟩
  · refine ⟨?_, ?_, ?_⟩ <;> simp [actuate_for_level]

end Volcano

/-- C4: in each `main_loop` iteration the actuators track the alert level
computed by `evaluate_alert`: the siren is driven exactly when the level is
at least 2, the beacon exactly when it is at least 1, and the RGB LED shows
(20,80,20) at level 0, (80,80,20) at level 1, (90,40,0) at level 2 and
(100,0,0) at any higher level. -/
theorem main_loop_actuation_tracks_alert_level (pm25 accel_mag mqv : Option ℚ) :
    (Volcano.actuate_for_level (Volcano.evaluate_alert pm25 accel_mag mqv none).1).siren =
        decide (2 ≤ (Volcano.evaluate_alert pm25 accel_mag mqv none).1) ∧
      (Volcano.actuate_for_level (Volcano.evaluate_alert pm25 accel_mag mqv none).1).beacon =
        decide (1 ≤ (Volcano.evaluate_alert pm25 accel_mag mqv none).1) ∧
      (Volcano.actuate_for_level (Volcano.evaluate_alert pm25 accel_mag mqv none).1).rgb =
        (if (Volcano.evaluate_alert pm25 accel_mag mqv none).1 = 0 then (20, 80, 20)
         else if (Volcano.evaluate_alert pm25 accel_mag mqv none).1 = 1 then (80, 80, 20)
         else if (Volcano.evaluate_alert pm25 accel_mag mqv none).1 = 2 then (90, 40, 0)
         else (100, 0, 0)) :=
  Volcano.actuate_for_level_cases _

/-- C5: the cloud push is best effort and never raises: `firebase_log`
always returns normally with a Bool, returning `true` exactly when Firebase
is available and the push completes, and `false` when Firebase is
unavailable or the push raises. -/
theorem firebase_log_best_effort (avail : Bool) (push : Except String Unit) :
    (∃ b : Bool, Volcano.firebase_log avail push = Except.ok b) ∧
      (Volcano.firebase_log avail push = Except.ok true ↔
        avail = true ∧ push = Except.ok ()) ∧
      (Volcano.firebase_log avail push = Except.ok false ↔
        avail = false ∨ ∃ e, push = Except.error e) := by
  cases avail <;> rcases push with u | e
  all_goals simp [Volcano.firebase_log]

namespace Volcano

lemma chk_mono {x x' thr : ℚ} (ht : 0 < thr) (hxx : x ≤ x') :
    chk (some x) thr = true → chk (some x') thr = true := by
  intro h
  simp only [chk, bne_iff_ne, ne_eq, Bool.and_eq_true, decide_eq_true_eq] at h ⊢
  obtain ⟨-, hle⟩ := h
  have hle' : thr ≤ x' := le_trans hle hxx
  exact ⟨by intro h0; rw [h0] at hle'; linarith, hle'⟩

lemma runStages_fst_mono :
    ∀ {ss ss' : List (Bool × ℕ × String)},
      List.Forall₂ (fun x y => (x.1 = true → y.1 = true) ∧ x.2.1 = y.2.1) ss ss' →
      ∀ {a b : ℕ × List String}, a.1 ≤ b.1 →
        (runStages a ss).1 ≤ (runStages b ss').1 := by
  intro ss ss' h
  induction h with
  | nil => intro a b hab; exact hab
  | @cons x y ss1 ss2 hxy hrest ih =>
    intro a b hab
    have hstep : runStages a (x :: ss1) = runStages (applyStage a x) ss1 := rfl
    have hstep' : runStages b (y :: ss2) = runStages (applyStage b y) ss2 := rfl
    rw [hstep, hstep']
    apply ih
    obtain ⟨himp, hlvl⟩ := hxy
    by_cases hx : x.1 = true
    · have hy := himp hx
      simp only [applyStage, hx, hy, if_true]
      rw [hlvl]
      exact max_le_max hab le_rfl
    · have hx' : x.1 = false := by simpa using hx
      simp only [applyStage, hx', Bool.false_eq_true, if_false]
      cases hy : y.1
      · simp only [Bool.false_eq_true, if_false]
        exact hab
      · simp only [if_true]
        exact le_trans hab (le_max_left _ _)

end Volcano

/-- C8: `evaluate_alert` is monotone in each reading: enlarging any of the
four non-negative readings (here all at once, which subsumes changing a
single one) never decreases the returned alert level. -/
theorem evaluate_alert_level_mono (p p' a a' m m' t t' : ℚ)
    (hp0 : 0 ≤ p) (ha0 : 0 ≤ a) (hm0 : 0 ≤ m) (ht0 : 0 ≤ t)
    (hp : p ≤ p') (ha : a ≤ a') (hm : m ≤ m') (ht : t ≤ t') :
    (Volcano.evaluate_alert (some p) (some a) (some m) (some t)).1 ≤
      (Volcano.evaluate_alert (some p') (some a') (some m') (some t')).1 := by
  rw [Volcano.evaluate_alert_eq_runStages, Volcano.evaluate_alert_eq_runStages]
  simp only [Volcano.finalizeAlert]
  apply Volcano.runStages_fst_mono ?_ le_rfl
  simp only [Volcano.codeStages]
  refine .cons ⟨Volcano.chk_mono (by norm_num) ha, rfl⟩ ?_
  refine .cons ⟨Volcano.chk_mono (by norm_num) hm, rfl⟩ ?_
  refine .cons ⟨Volcano.chk_mono (by norm_num) ht, rfl⟩ ?_
  refine .cons ⟨Volcano.chk_mono (by norm_num) ha, rfl⟩ ?_
  refine .cons ⟨Volcano.chk_mono (by norm_num) hm, rfl⟩ ?_
  refine .cons ⟨Volcano.chk_mono (by norm_num) ht, rfl⟩ ?_
  refine .cons ⟨Volcano.chk_mono (by norm_num) ha, rfl⟩ ?_
  refine .cons ⟨Volcano.chk_mono (by norm_num) hp, rfl⟩ ?_
  refine .cons ⟨Volcano.chk_mono (by norm_num) hm, rfl⟩ ?_
  refine .cons ⟨Volcano.chk_mono (by norm_num) ha, rfl⟩ ?_
  refine .cons ⟨Volcano.chk_mono (by norm_num) hp, rfl⟩ ?_
  refine .cons ⟨Volcano.chk_mono (by norm_num) ha, rfl⟩ ?_
  refine .cons ⟨Volcano.chk_mono (by norm_num) hp, rfl⟩ ?_
  exact .nil

/-- Witness for C8 at concrete inputs. -/
theorem evaluate_alert_level_mono_witness :
    (0:ℚ) ≤ 500 ∧ (0:ℚ) ≤ 2 ∧
      (Volcano.evaluate_alert (some 0) (some 0) (some 0) (some 0)).1 ≤
        (Volcano.evaluate_alert (some 500) (some 2) (some 3) (some 100)).1 :=
  ⟨by norm_num, by norm_num,
    evaluate_alert_level_mono 0 500 0 2 0 3 0 100 le_rfl le_rfl le_rfl le_rfl
      (by norm_num) (by norm_num) (by norm_num) (by norm_num)⟩

namespace Lab6

lemma calculate_tremor_mem {pt : ℚ} (s : Bool) (h1 : 1/1000 ≤ pt) (h2 : pt ≤ 1/10) :
    1/1000 ≤ calculate_tremor s pt ∧ calculate_tremor s pt ≤ 1/10 := by
  cases s
  · simp only [calculate_tremor, Bool.false_eq_true, if_false]
    constructor
    · exact le_max_right _ _
    · refine max_le ?_ (by norm_num)
      have hb : (pt * (4/5)) * 10 ^ 3 ≤ ((80 : ℤ) : ℚ) := by push_cast; linarith
      calc pyRound (pt * (4/5)) 3 ≤ ((80:ℤ):ℚ) / 10 ^ 3 := pyRound_le hb
        _ ≤ 1/10 := by norm_num
  · simp only [calculate_tremor, if_true]
    constructor
    · refine le_min ?_ (by norm_num)
      have hb : ((21 : ℤ) : ℚ) ≤ (pt + 1/50) * 10 ^ 3 := by push_cast; linarith
      calc (1:ℚ)/1000 ≤ ((21:ℤ):ℚ) / 10 ^ 3 := by norm_num
        _ ≤ pyRound (pt + 1/50) 3 := le_pyRound hb
    · exact min_le_right _ _

/-- The tremor value threaded through the logging loop of `lab6.py`:
fold of `calculate_tremor` over the successive sound readings, starting
from the 0.01 baseline set in `main`. -/
def tremorIter (sounds : List Bool) : ℚ :=
  sounds.foldl (fun t s => calculate_tremor s t) (1/100)

lemma tremorIter_aux (sounds : List Bool) :
    ∀ {t : ℚ}, 1/1000 ≤ t → t ≤ 1/10 →
      1/1000 ≤ sounds.foldl (fun t s => calculate_tremor s t) t ∧
        sounds.foldl (fun t s => calculate_tremor s t) t ≤ 1/10 := by
  induction sounds with
  | nil => intro t h1 h2; exact ⟨h1, h2⟩
  | cons s ss ih =>
    intro t h1 h2
    have h := calculate_tremor_mem s h1 h2
    exact ih h.1 h.2

end Lab6

/-- C10: `calculate_tremor` preserves the tremor range [0.001, 0.10], so
the tremor value threaded through the logging loop stays in that interval
from its 0.01 starting point, whatever the sequence of sound readings. -/
theorem calculate_tremor_range (s : Bool) (pt : ℚ)
    (h1 : 1/1000 ≤ pt) (h2 : pt ≤ 1/10) :
    (1/1000 ≤ Lab6.calculate_tremor s pt ∧ Lab6.calculate_tremor s pt ≤ 1/10) ∧
      ∀ sounds : List Bool,
        1/1000 ≤ Lab6.tremorIter sounds ∧ Lab6.tremorIter sounds ≤ 1/10 := by
  refine ⟨Lab6.calculate_tremor_mem s h1 h2, fun sounds => ?_⟩
  exact Lab6.tremorIter_aux sounds (by norm_num) (by norm_num)

/-- Witness for C10 at a concrete previous tremor. -/
theorem calculate_tremor_range_witness :
    ((1:ℚ)/1000 ≤ 1/100 ∧ (1:ℚ)/100 ≤ 1/10) ∧
      ((1/1000 ≤ Lab6.calculate_tremor true (1/100) ∧
          Lab6.calculate_tremor true (1/100) ≤ 1/10) ∧
        ∀ sounds : List Bool,
          1/1000 ≤ Lab6.tremorIter sounds ∧ Lab6.tremorIter sounds ≤ 1/10) :=
  ⟨⟨by norm_num, by norm_num⟩,
    calculate_tremor_range true (1/100) (by norm_num) (by norm_num)⟩

/-- C3 counterexample: two invocations of `read_and_log_data` observing the
same current readings (same timestamp, temperature 25, humidity 60, no
sound) but different `previous_tremor` arguments (0.01 vs 0.05) log
different rows and return different values, so the step is not stateless. -/
theorem read_and_log_data_not_stateless :
    (Lab6.read_and_log_data [] "2025-01-01 00:00:00" (some 25) (some 60)
        false (1/100)).1 ≠
      (Lab6.read_and_log_data [] "2025-01-01 00:00:00" (some 25) (some 60)
        false (1/20)).1 ∧
    (Lab6.read_and_log_data [] "2025-01-01 00:00:00" (some 25) (some 60)
        false (1/100)).2.2 ≠
      (Lab6.read_and_log_data [] "2025-01-01 00:00:00" (some 25) (some 60)
        false (1/20)).2.2 := by
  have htr1 : Lab6.calculate_tremor false (1/100) = 1/125 := by
    norm_num [Lab6.calculate_tremor, pyRound, roundHalfEven]
  have htr2 : Lab6.calculate_tremor false (1/20) = 1/25 := by
    norm_num [Lab6.calculate_tremor, pyRound, roundHalfEven]
  have e1 : (Lab6.read_and_log_data [] "2025-01-01 00:00:00" (some 25) (some 60)
      false (1/100)).1.simulated_tremor_ms2 =
        fmtFixed 3 (Lab6.calculate_tremor false (1/100)) := rfl
  have e2 : (Lab6.read_and_log_data [] "2025-01-01 00:00:00" (some 25) (some 60)
      false (1/20)).1.simulated_tremor_ms2 =
        fmtFixed 3 (Lab6.calculate_tremor false (1/20)) := rfl
  have f1 : fmtFixed 3 ((1:ℚ)/125) = "0.008" := by
    norm_num [fmtFixed, roundHalfEven]
    rfl
  have f2 : fmtFixed 3 ((1:ℚ)/25) = "0.040" := by
    norm_num [fmtFixed, roundHalfEven]
    rfl
  constructor
  · intro h
    have hf := congrArg Lab6.DataRow.simulated_tremor_ms2 h
    rw [e1, e2, htr1, htr2, f1, f2] at hf
    exact absurd hf (by decide)
  · intro h
    have hr : Lab6.calculate_tremor false (1/100) =
        Lab6.calculate_tremor false (1/20) := h
    rw [htr1, htr2] at hr
    norm_num at hr

namespace Lab6

lemma rald_timestamp (csvfile : CsvFile) (ts : String)
    (temperature humidity : Option ℚ) (s : Bool) (pt : ℚ) :
    (read_and_log_data csvfile ts temperature humidity s pt).1.timestamp = ts := rfl

lemma rald_temperature (csvfile : CsvFile) (ts : String)
    (temperature humidity : Option ℚ) (s : Bool) (pt : ℚ) :
    (read_and_log_data csvfile ts temperature humidity s pt).1.temperature_C =
      fmtOpt 1 temperature := rfl

lemma rald_humidity (csvfile : CsvFile) (ts : String)
    (temperature humidity : Option ℚ) (s : Bool) (pt : ℚ) :
    (read_and_log_data csvfile ts temperature humidity s pt).1.humidity_pct =
      fmtOpt 1 humidity := rfl

lemma rald_sound (csvfile : CsvFile) (ts : String)
    (temperature humidity : Option ℚ) (s : Bool) (pt : ℚ) :
    (read_and_log_data csvfile ts temperature humidity s pt).1.sound_detected =
      (if s then "YES" else "NO") := rfl

lemma rald_pm25 (csvfile : CsvFile) (ts : String)
    (temperature humidity : Option ℚ) (s : Bool) (pt : ℚ) :
    (read_and_log_data csvfile ts temperature humidity s pt).1.simulated_PM25 =
      fmtOpt 1 (calculate_pm25 temperature humidity) := rfl

lemma rald_airq (csvfile : CsvFile) (ts : String)
    (temperature humidity : Option ℚ) (s : Bool) (pt : ℚ) :
    (read_and_log_data csvfile ts temperature humidity s pt).1.air_quality_status =
      get_air_quality_status (calculate_pm25 temperature humidity) := rfl

lemma rald_file (csvfile : CsvFile) (ts : String)
    (temperature humidity : Option ℚ) (s : Bool) (pt : ℚ) :
    (read_and_log_data csvfile ts temperature humidity s pt).2.1 =
      csvfile ++
        [rowCells (read_and_log_data csvfile ts temperature humidity s pt).1] := rfl

lemma rald_ret (csvfile : CsvFile) (ts : String)
    (temperature humidity : Option ℚ) (s : Bool) (pt : ℚ) :
    (read_and_log_data csvfile ts temperature humidity s pt).2.2 =
      calculate_tremor s pt := rfl

end Lab6

/-- C3 amended: the logging step is a deterministic function of the current
readings together with the threaded `previous_tremor`; every logged field
other than the two tremor-derived ones (and the returned tremor value) is
independent of `previous_tremor`. -/
theorem read_and_log_data_frame (csvfile : Lab6.CsvFile) (ts : String)
    (temperature humidity : Option ℚ) (s : Bool) (pt pt' : ℚ) :
    (Lab6.read_and_log_data csvfile ts temperature humidity s pt).1.timestamp =
        (Lab6.read_and_log_data csvfile ts temperature humidity s pt').1.timestamp ∧
      (Lab6.read_and_log_data csvfile ts temperature humidity s pt).1.temperature_C =
        (Lab6.read_and_log_data csvfile ts temperature humidity s pt').1.temperature_C ∧
      (Lab6.read_and_log_data csvfile ts temperature humidity s pt).1.humidity_pct =
        (Lab6.read_and_log_data csvfile ts temperature humidity s pt').1.humidity_pct ∧
      (Lab6.read_and_log_data csvfile ts temperature humidity s pt).1.sound_detected =
        (Lab6.read_and_log_data csvfile ts temperature humidity s pt').1.sound_detected ∧
      (Lab6.read_and_log_data csvfile ts temperature humidity s pt).1.simulated_PM25 =
        (Lab6.read_and_log_data csvfile ts temperature humidity s pt').1.simulated_PM25 ∧
      (Lab6.read_and_log_data csvfile ts temperature humidity s pt).1.air_quality_status =
        (Lab6.read_and_log_data csvfile ts temperature humidity s pt').1.air_quality_status := by
  rw [Lab6.rald_timestamp, Lab6.rald_timestamp, Lab6.rald_temperature,
    Lab6.rald_temperature, Lab6.rald_humidity, Lab6.rald_humidity,
    Lab6.rald_sound, Lab6.rald_sound, Lab6.rald_pm25, Lab6.rald_pm25,
    Lab6.rald_airq, Lab6.rald_airq]
  exact ⟨rfl, rfl, rfl, rfl, rfl, rfl⟩

/-- C6: CSV logging is append-only: `initialize_csv` writes the header only
when the file does not exist and leaves an existing file unchanged, and one
`read_and_log_data` call appends exactly one row, leaving every previously
written row in place. -/
theorem csv_logging_append_only (rows csvfile : Lab6.CsvFile) (ts : String)
    (temperature humidity : Option ℚ) (s : Bool) (pt : ℚ) :
    Lab6.initialize_csv none = [Lab6.headerRow] ∧
      Lab6.initialize_csv (some rows) = rows ∧
      ((Lab6.read_and_log_data csvfile ts temperature humidity s pt).2.1).length =
        csvfile.length + 1 ∧
      ((Lab6.read_and_log_data csvfile ts temperature humidity s pt).2.1).take
        csvfile.length = csvfile ∧
      ((Lab6.read_and_log_data csvfile ts temperature humidity s pt).2.1).drop
        csvfile.length =
        [Lab6.rowCells (Lab6.read_and_log_data csvfile ts temperature humidity s pt).1] := by
  refine ⟨rfl, rfl, ?_, ?_, ?_⟩
  · rw [Lab6.rald_file]
    simp
  · rw [Lab6.rald_file]
    exact List.take_left csvfile _
  · rw [Lab6.rald_file]
    exact List.drop_left csvfile _

/-- C2 counterexample: at PM2.5 = 300 the three status tables disagree:
lab6 gives "VERY_UNHEALTHY", lab8 gives "HAZARDOUS" (its table has no
VERY_UNHEALTHY bucket) and lab8try gives "VERY UNHEALTHY" (space, not
underscore). -/
theorem air_quality_tables_disagree :
    Lab6.get_air_quality_status (some 300) = "VERY_UNHEALTHY" ∧
      (Lab8.get_air_quality_status (some 300)).1 = "HAZARDOUS" ∧
      Lab8try.get_air_quality 300 = "VERY UNHEALTHY" ∧
      Lab6.get_air_quality_status (some 300) ≠
        (Lab8.get_air_quality_status (some 300)).1 ∧
      Lab6.get_air_quality_status (some 300) ≠ Lab8try.get_air_quality 300 := by
  have h6 : Lab6.get_air_quality_status (some 300) = "VERY_UNHEALTHY" := by
    norm_num [Lab6.get_air_quality_status]
  have h8 : (Lab8.get_air_quality_status (some 300)).1 = "HAZARDOUS" := by
    norm_num [Lab8.get_air_quality_status]
  have h8t : Lab8try.get_air_quality 300 = "VERY UNHEALTHY" := by
    norm_num [Lab8try.get_air_quality]
  refine ⟨h6, h8, h8t, ?_, ?_⟩
  · rw [h6, h8]; decide
  · rw [h6, h8t]; decide

/-- C2 amended: the three copy-pasted air-quality tables agree on every
PM2.5 value outside (250, 350]: for any reading that is ≤ 250 or > 350 all
three return the same label, and lab6 and lab8 also agree ("UNKNOWN") on a
missing reading.  On (250, 350] lab6 returns "VERY_UNHEALTHY", lab8try
"VERY UNHEALTHY" and lab8 "HAZARDOUS". -/
theorem air_quality_tables_agree_outside_gap (x : ℚ)
    (hx : x ≤ 250 ∨ 350 < x) :
    Lab6.get_air_quality_status (some x) =
        (Lab8.get_air_quality_status (some x)).1 ∧
      Lab6.get_air_quality_status (some x) = Lab8try.get_air_quality x ∧
      Lab6.get_air_quality_status none = (Lab8.get_air_quality_status none).1 := by
  refine ⟨?_, ?_, rfl⟩
  · simp only [Lab6.get_air_quality_status, Lab8.get_air_quality_status,
      apply_ite Prod.fst]
    rcases hx with h | h <;> split_ifs <;> first | rfl | linarith
  · simp only [Lab6.get_air_quality_status, Lab8try.get_air_quality]
    rcases hx with h | h <;> split_ifs <;> first | rfl | linarith

/-- Witness for the amended C2 at PM2.5 = 10. -/
theorem air_quality_tables_agree_outside_gap_witness :
    ((10:ℚ) ≤ 250 ∨ 350 < (10:ℚ)) ∧
      (Lab6.get_air_quality_status (some 10) =
          (Lab8.get_air_quality_status (some 10)).1 ∧
        Lab6.get_air_quality_status (some 10) = Lab8try.get_air_quality 10 ∧
        Lab6.get_air_quality_status none = (Lab8.get_air_quality_status none).1) :=
  ⟨Or.inl (by norm_num),
    air_quality_tables_agree_outside_gap 10 (Or.inl (by norm_num))⟩

/-- C7: in lab8's simulation fallback, the derived PM2.5 lies in [400, 500]
when the simulated soil reading is dry and in [0, 50] when it is wet, so
the air-quality status of a simulated reading is always "HAZARDOUS" (dry)
or "SAFE" (wet) and never MODERATE, UNHEALTHY or VERY_UNHEALTHY. -/
theorem sim_pm25_range_and_status (u : ℚ) (h0 : 0 ≤ u) (h1 : u ≤ 1) :
    (∃ p, (Lab8.calculate_derived_pm25 (some true) u).1 = some p ∧
      400 ≤ p ∧ p ≤ 500 ∧
        (Lab8.get_air_quality_status (some p)).1 = "HAZARDOUS") ∧
    (∃ p, (Lab8.calculate_derived_pm25 (some false) u).1 = some p ∧
      0 ≤ p ∧ p ≤ 50 ∧ (Lab8.get_air_quality_status (some p)).1 = "SAFE") := by
  constructor
  · have hlo : (400:ℚ) ≤ pyRound (400 + 100 * u) 1 := by
      have hb : ((4000 : ℤ) : ℚ) ≤ (400 + 100 * u) * 10 ^ 1 := by
        push_cast; linarith
      calc (400:ℚ) = ((4000:ℤ):ℚ) / 10 ^ 1 := by norm_num
        _ ≤ pyRound (400 + 100 * u) 1 := le_pyRound hb
    have hhi : pyRound (400 + 100 * u) 1 ≤ 500 := by
      have hb : (400 + 100 * u) * 10 ^ 1 ≤ ((5000 : ℤ) : ℚ) := by
        push_cast; linarith
      calc pyRound (400 + 100 * u) 1 ≤ ((5000:ℤ):ℚ) / 10 ^ 1 := pyRound_le hb
        _ = 500 := by norm_num
    refine ⟨pyRound (400 + 100 * u) 1, rfl, hlo, hhi, ?_⟩
    simp only [Lab8.get_air_quality_status]
    rw [if_neg (by linarith), if_neg (by linarith), if_neg (by linarith)]
  · have hlo : (0:ℚ) ≤ pyRound (50 * u) 1 := by
      have hb : ((0 : ℤ) : ℚ) ≤ (50 * u) * 10 ^ 1 := by push_cast; linarith
      calc (0:ℚ) = ((0:ℤ):ℚ) / 10 ^ 1 := by norm_num
        _ ≤ pyRound (50 * u) 1 := le_pyRound hb
    have hhi : pyRound (50 * u) 1 ≤ 50 := by
      have hb : (50 * u) * 10 ^ 1 ≤ ((500 : ℤ) : ℚ) := by push_cast; linarith
      calc pyRound (50 * u) 1 ≤ ((500:ℤ):ℚ) / 10 ^ 1 := pyRound_le hb
        _ = 50 := by norm_num
    refine ⟨pyRound (50 * u) 1, rfl, hlo, hhi, ?_⟩
    simp only [Lab8.get_air_quality_status]
    rw [if_pos (by linarith)]

/-- Witness for C7 at a concrete unit draw. -/
theorem sim_pm25_range_and_status_witness :
    ((0:ℚ) ≤ 1/2 ∧ (1:ℚ)/2 ≤ 1) ∧
      ((∃ p, (Lab8.calculate_derived_pm25 (some true) (1/2)).1 = some p ∧
        400 ≤ p ∧ p ≤ 500 ∧
          (Lab8.get_air_quality_status (some p)).1 = "HAZARDOUS") ∧
      (∃ p, (Lab8.calculate_derived_pm25 (some false) (1/2)).1 = some p ∧
        0 ≤ p ∧ p ≤ 50 ∧
          (Lab8.get_air_quality_status (some p)).1 = "SAFE")) :=
  ⟨⟨by norm_num, by norm_num⟩,
    sim_pm25_range_and_status (1/2) (by norm_num) (by norm_num)⟩
